import Mathlib

/-!
Verification of the plyband core geometry against its specification.

The source is embedded shallowly at two levels of fidelity:

* a rational-number model (`GeoTransform`, `Swath`, `intersection`, …) for
  the geometric pipeline, in which every `f64` value is finite and the
  `RealF64` comparator of `src/types.rs` coincides with the order on `ℚ`;
* a float-aware model (`F`, `GeoTransformF`, `cmpF`, `gt_compatibleF`,
  `invertF`) in which a value is a finite rational, `nan`, `inf` or
  `neginf`, with IEEE-style propagation for the operations the source
  performs.  Signed zero and overflow-to-infinity are not distinguished;
  no theorem below depends on either.
-/

namespace Plyband

/-- Truncation toward zero of a rational, as Rust's `f64::trunc`. -/
def truncQ (x : ℚ) : ℤ := if 0 ≤ x then ⌊x⌋ else ⌈x⌉

/-- Rust's `%` on `f64` with divisor `1.0`: `x - trunc(x)`. -/
def rustMod1 (x : ℚ) : ℚ := x - truncQ x

/-- Maximum of a list of rationals (the source only takes extrema of
non-empty corner/extreme lists; the default for `[]` is never used). -/
def maxQ (l : List ℚ) : ℚ := l.foldl max (l.headD 0)

/-- Minimum of a list of rationals. -/
def minQ (l : List ℚ) : ℚ := l.foldl min (l.headD 0)

/-- The six coefficients `self[0] … self[5]` of a GDAL `GeoTransform`
(`src/types.rs`): `a, b, c` drive the x equation, `d, e, f` the y one. -/
structure GeoTransform where
  a : ℚ
  b : ℚ
  c : ℚ
  d : ℚ
  e : ℚ
  f : ℚ
deriving DecidableEq

namespace GeoTransform

/-- Forward affine map on fractional pixel coordinates:
`x = a + nx·b + ny·c`, `y = d + nx·e + ny·f` (`src/types.rs`, `apply`;
the source casts its integer inputs to `f64` and evaluates exactly
this formula). -/
def applyQ (g : GeoTransform) (pos : ℚ × ℚ) : ℚ × ℚ :=
  (g.a + pos.1 * g.b + pos.2 * g.c, g.d + pos.1 * g.e + pos.2 * g.f)

/-- `Transform2::apply` for `GeoTransform` (`src/types.rs`, lines 37–43):
integer pixel position cast to floats, then the affine formula. -/
def apply (g : GeoTransform) (pos : ℤ × ℤ) : ℚ × ℚ :=
  g.applyQ ((pos.1 : ℚ), (pos.2 : ℚ))

/-- `Transform2::invert` for `GeoTransform` (`src/types.rs`, lines 45–65):
closed-form elimination, branching on whether coefficient `b` is zero. -/
def invert (g : GeoTransform) (pt : ℚ × ℚ) : ℚ × ℚ :=
  let x := pt.1
  let y := pt.2
  if g.b ≠ 0 then
    let ny := (g.b * y - g.b * g.d - g.e * x + g.e * g.a) / (g.b * g.f - g.e * g.c)
    let nx := (x - g.a - ny * g.c) / g.b
    (nx, ny)
  else
    let ny := (g.e * x - g.e * g.a - g.b * y + g.b * g.d) / (g.e * g.c - g.b * g.f)
    let nx := (y - g.d - ny * g.f) / g.e
    (nx, ny)

/-- `Transform2::imsize` (`src/types.rs`, lines 29–33): invert the point
and take the ceiling of each coordinate. -/
def imsize (g : GeoTransform) (pt : ℚ × ℚ) : ℤ × ℤ :=
  let r := g.invert pt
  (⌈r.1⌉, ⌈r.2⌉)

end GeoTransform

/-- The rounding rule the specification prescribes for `pixel_extent`:
smallest integer pixel count whose footprint covers the target, rounding
away from zero symmetrically in both signs (a signed ceiling). -/
def pixel_extent_spec (x : ℚ) : ℤ := if 0 ≤ x then ⌈x⌉ else -⌈-x⌉

/-- A `Swath` (`src/swath.rs`, lines 11–17): pixel dimensions, transform
and projection string.  `Swath::from_band` merely copies these four
fields out of the band's dataset, so the intersection engine is modelled
directly on lists of `Swath`. -/
structure Swath where
  nx : ℤ
  ny : ℤ
  gt : GeoTransform
  proj : String
deriving DecidableEq

namespace Swath

/-- `Swath::corners` (`src/swath.rs`, lines 36–45): the four grid corners
mapped to world space. -/
def corners (s : Swath) : List (ℚ × ℚ) :=
  [s.gt.apply (0, 0), s.gt.apply (s.nx, 0), s.gt.apply (s.nx, s.ny), s.gt.apply (0, s.ny)]

/-- `Swath::left_extreme`: minimum corner x. -/
def left_extreme (s : Swath) : ℚ := minQ (s.corners.map Prod.fst)

/-- `Swath::right_extreme`: maximum corner x. -/
def right_extreme (s : Swath) : ℚ := maxQ (s.corners.map Prod.fst)

/-- `Swath::bottom_extreme`: minimum corner y. -/
def bottom_extreme (s : Swath) : ℚ := minQ (s.corners.map Prod.snd)

/-- `Swath::top_extreme`: maximum corner y. -/
def top_extreme (s : Swath) : ℚ := maxQ (s.corners.map Prod.snd)

end Swath

/-- `src/swath.rs`, line 105: the rightmost of the left extremes. -/
def rightmost_left (ss : List Swath) : ℚ := maxQ (ss.map Swath.left_extreme)

/-- `src/swath.rs`, line 106: the leftmost of the right extremes (`min`). -/
def leftmost_right (ss : List Swath) : ℚ := minQ (ss.map Swath.right_extreme)

/-- `src/swath.rs`, line 107: the uppermost of the bottom extremes. -/
def upper_bottom (ss : List Swath) : ℚ := maxQ (ss.map Swath.bottom_extreme)

/-- `src/swath.rs`, line 108: the lowermost of the top extremes (`min`). -/
def lower_top (ss : List Swath) : ℚ := minQ (ss.map Swath.top_extreme)

/-- `src/main.rs`, line 194: the superseded CLI variant takes `max` of
the right extremes. -/
def leftmost_right_main (ss : List Swath) : ℚ := maxQ (ss.map Swath.right_extreme)

/-- `src/main.rs`, line 196: the superseded CLI variant takes `max` of
the top extremes. -/
def lower_top_main (ss : List Swath) : ℚ := maxQ (ss.map Swath.top_extreme)

/-- `intersection` (`src/swath.rs`, lines 93–136): boundary extremes by
`max`/`min`/`max`/`min`, failure on an inverted rectangle, output
transform from the first input with origin `(left, top)`, output size by
`imsize` at `(right, bottom)`. -/
def intersection (ss : List Swath) : Except String Swath :=
  match ss with
  | [] => .error "No bands provided"
  | s0 :: _ =>
    if rightmost_left ss > leftmost_right ss ∨ upper_bottom ss > lower_top ss then
      .error "No valid intersection between bands"
    else
      let gt : GeoTransform :=
        ⟨rightmost_left ss, s0.gt.b, s0.gt.c, lower_top ss, s0.gt.e, s0.gt.f⟩
      let sz := gt.imsize (leftmost_right ss, upper_bottom ss)
      .ok ⟨sz.1, sz.2, gt, s0.proj⟩

/-- `intersection` (`src/main.rs`, lines 179–224): identical except that
lines 193–196 take `max` of all four extreme lists. -/
def intersection_main (ss : List Swath) : Except String Swath :=
  match ss with
  | [] => .error "No bands provided"
  | s0 :: _ =>
    if rightmost_left ss > leftmost_right_main ss ∨ upper_bottom ss > lower_top_main ss then
      .error "No valid intersection between bands"
    else
      let gt : GeoTransform :=
        ⟨rightmost_left ss, s0.gt.b, s0.gt.c, lower_top_main ss, s0.gt.e, s0.gt.f⟩
      let sz := gt.imsize (leftmost_right_main ss, upper_bottom ss)
      .ok ⟨sz.1, sz.2, gt, s0.proj⟩

/-- Per-dataset metadata the validators consume (`Dataset::geo_transform`
and `Dataset::projection` in `src/validation.rs`). -/
structure Dataset where
  gt : GeoTransform
  proj : String
deriving DecidableEq

/-- `all_same` (`src/validation.rs`, lines 6–23): fold carrying
`(still-equal, last-seen)` over the list. -/
def all_same {α : Type} [DecidableEq α] (things : List α) : Bool :=
  (things.foldl
    (fun acc right =>
      if acc.1 then
        ((match acc.2 with
          | none => true
          | some l => decide (l = right)), some right)
      else
        (acc.1, some right))
    (true, (none : Option α))).1

/-- `have_same_projection` (`src/validation.rs`, lines 25–32). -/
def have_same_projection (datasets : List Dataset) : Except String Unit :=
  if all_same (datasets.map Dataset.proj) then .ok () else .error "Different projections"

/-- `gt_compatible` (`src/validation.rs`, lines 34–55): spacing check by
equality of `(b, c, e, f)`, then offset check by inverting the second
origin through the first transform and requiring both remainders mod 1
to vanish. -/
def gt_compatible (gt1 gt2 : GeoTransform) : Except String Unit :=
  if gt1.b = gt2.b ∧ gt1.c = gt2.c ∧ gt1.e = gt2.e ∧ gt1.f = gt2.f then
    let r := gt1.invert (gt2.a, gt2.d)
    if rustMod1 r.1 = 0 ∧ rustMod1 r.2 = 0 then .ok ()
    else .error "grids offset"
  else
    .error "non-equal spacing"

/-- `have_compatible_geotransforms` (`src/validation.rs`, lines 57–75):
empty input is an error; otherwise fold `gt_compatible` over adjacent
pairs, seeded with the first transform (the fold also visits the first
dataset, comparing it against itself). -/
def have_compatible_geotransforms (datasets : List Dataset) : Except String Unit :=
  match datasets with
  | [] => .error "empty dataset list"
  | d0 :: _ =>
    (datasets.foldl
      (fun acc right =>
        if acc.1.toBool then (gt_compatible acc.2 right.gt, right.gt)
        else (acc.1, acc.2))
      ((Except.ok () : Except String Unit), d0.gt)).1

/-! ### Float-aware model

`F` models the `f64` values the source can actually meet: finite
rationals, the two infinities, and NaN.  Signed zero is not
distinguished and overflow is not modelled; no theorem below depends on
either. -/

/-- An IEEE double: a finite rational, `inf`, `neginf`, or `nan`. -/
inductive F where
  | real (q : ℚ)
  | inf
  | neginf
  | nan
deriving DecidableEq

namespace F

/-- `f64::is_nan`. -/
def isNan : F → Bool
  | nan => true
  | _ => false

/-- IEEE negation. -/
def neg : F → F
  | real q => real (-q)
  | inf => neginf
  | neginf => inf
  | nan => nan

/-- IEEE addition (NaN propagates; `inf + neginf = nan`). -/
def add : F → F → F
  | nan, _ => nan
  | _, nan => nan
  | inf, neginf => nan
  | neginf, inf => nan
  | inf, _ => inf
  | _, inf => inf
  | neginf, _ => neginf
  | _, neginf => neginf
  | real p, real q => real (p + q)

/-- IEEE subtraction. -/
def sub (x y : F) : F := add x (neg y)

/-- IEEE multiplication (`0 * inf = nan`). -/
def mul : F → F → F
  | nan, _ => nan
  | _, nan => nan
  | inf, inf => inf
  | inf, neginf => neginf
  | neginf, inf => neginf
  | neginf, neginf => inf
  | inf, real q => if q = 0 then nan else if 0 < q then inf else neginf
  | real q, inf => if q = 0 then nan else if 0 < q then inf else neginf
  | neginf, real q => if q = 0 then nan else if 0 < q then neginf else inf
  | real q, neginf => if q = 0 then nan else if 0 < q then neginf else inf
  | real p, real q => real (p * q)

/-- IEEE division (`x / 0` is an infinity for `x ≠ 0` and `nan` for
`0 / 0`; the divisor `0` is treated as `+0`). -/
def div : F → F → F
  | nan, _ => nan
  | _, nan => nan
  | inf, inf => nan
  | inf, neginf => nan
  | neginf, inf => nan
  | neginf, neginf => nan
  | inf, real q => if 0 ≤ q then inf else neginf
  | neginf, real q => if 0 ≤ q then neginf else inf
  | real _, inf => real 0
  | real _, neginf => real 0
  | real p, real q =>
    if q = 0 then (if p = 0 then nan else if 0 < p then inf else neginf)
    else real (p / q)

/-- Rust's `%` on doubles (remainder with truncated quotient): NaN for a
NaN operand, an infinite dividend, or a zero divisor; the dividend
unchanged for an infinite divisor. -/
def fmod : F → F → F
  | nan, _ => nan
  | _, nan => nan
  | inf, _ => nan
  | neginf, _ => nan
  | real p, inf => real p
  | real p, neginf => real p
  | real p, real q => if q = 0 then nan else real (p - q * Plyband.truncQ (p / q))

/-- IEEE `==`: `nan` is equal to nothing, including itself. -/
def feq : F → F → Bool
  | nan, _ => false
  | _, nan => false
  | inf, inf => true
  | inf, _ => false
  | _, inf => false
  | neginf, neginf => true
  | neginf, _ => false
  | _, neginf => false
  | real p, real q => decide (p = q)

/-- `f64::partial_cmp`: `none` iff an operand is NaN, otherwise the
extended-real order. -/
def partialCmp : F → F → Option Ordering
  | nan, _ => none
  | _, nan => none
  | neginf, neginf => some .eq
  | neginf, _ => some .lt
  | _, neginf => some .gt
  | inf, inf => some .eq
  | _, inf => some .lt
  | inf, _ => some .gt
  | real p, real q => some (compare p q)

end F

/-- `Ord::cmp` for `RealF64` (`src/types.rs`, lines 10–18): `Equal` when
`self` is NaN, otherwise `partial_cmp(other).unwrap_or(Equal)`. -/
def cmpF (x y : F) : Ordering :=
  if x.isNan then Ordering.eq
  else (F.partialCmp x y).getD Ordering.eq

/-- A geotransform whose coefficients are modelled doubles. -/
structure GeoTransformF where
  a : F
  b : F
  c : F
  d : F
  e : F
  f : F
deriving DecidableEq

/-- `Transform2::invert` over modelled doubles (`src/types.rs`, lines
45–65): the same closed-form elimination, with IEEE arithmetic.  The
branch condition is Rust's `b != 0.0`, which is true for a NaN `b`. -/
def invertF (g : GeoTransformF) (pt : F × F) : F × F :=
  let x := pt.1
  let y := pt.2
  if (g.b.feq (F.real 0)) = false then
    let ny := F.div (F.add (F.sub (F.sub (F.mul g.b y) (F.mul g.b g.d)) (F.mul g.e x))
                           (F.mul g.e g.a))
                    (F.sub (F.mul g.b g.f) (F.mul g.e g.c))
    let nx := F.div (F.sub (F.sub x g.a) (F.mul ny g.c)) g.b
    (nx, ny)
  else
    let ny := F.div (F.add (F.sub (F.sub (F.mul g.e x) (F.mul g.e g.a)) (F.mul g.b y))
                           (F.mul g.b g.d))
                    (F.sub (F.mul g.e g.c) (F.mul g.b g.f))
    let nx := F.div (F.sub (F.sub y g.d) (F.mul ny g.f)) g.e
    (nx, ny)

/-- `gt_compatible` over modelled doubles (`src/validation.rs`, lines
34–55): the spacing check compares `(b, c, e, f)` with IEEE `==`, the
offset check tests `nx % 1.0 == 0.0 && ny % 1.0 == 0.0`. -/
def gt_compatibleF (gt1 gt2 : GeoTransformF) : Except String Unit :=
  if (gt1.b.feq gt2.b && gt1.c.feq gt2.c && gt1.e.feq gt2.e && gt1.f.feq gt2.f) then
    let r := invertF gt1 (gt2.a, gt2.d)
    if ((r.1.fmod (F.real 1)).feq (F.real 0) && (r.2.fmod (F.real 1)).feq (F.real 0)) then
      .ok ()
    else .error "grids offset"
  else
    .error "non-equal spacing"

/-! ### Concrete inputs used by the theorems -/

/-- Grid A of the worked scenario: 100×100, pixel size `(1, -1)`, no
rotation, origin `(0, 100)`. -/
def gridA : Swath := ⟨100, 100, ⟨0, 1, 0, 100, 0, -1⟩, "P"⟩

/-- Grid B of the worked scenario: origin `(5, 100)`. -/
def gridB : Swath := ⟨100, 100, ⟨5, 1, 0, 100, 0, -1⟩, "P"⟩

/-- Grid C of the worked scenario: origin `(0, 95)`. -/
def gridC : Swath := ⟨100, 100, ⟨0, 1, 0, 95, 0, -1⟩, "P"⟩

/-- A grid that merely touches `gridA` on its right edge: origin
`(100, 100)`, so its x-envelope is `[100, 200]` while `gridA`'s is
`[0, 100]`. -/
def gridTouch : Swath := ⟨100, 100, ⟨100, 1, 0, 100, 0, -1⟩, "P"⟩

/-- A grid disjoint from `gridA`: origin `(200, 100)`. -/
def gridFar : Swath := ⟨100, 100, ⟨200, 1, 0, 100, 0, -1⟩, "P"⟩

/-- A transform whose linear part `[[b, c], [e, f]] = [[1, 1], [1, 1]]`
is singular (`b·f - e·c = 0`). -/
def gtSingular : GeoTransformF :=
  ⟨F.real 0, F.real 1, F.real 1, F.real 0, F.real 1, F.real 1⟩

/-- A transform whose `b` coefficient is NaN (and is hence bitwise
identical to itself while never `==`-equal to itself). -/
def gtNanB : GeoTransformF :=
  ⟨F.real 0, F.nan, F.real 0, F.real 0, F.real 0, F.real 1⟩

/-- Reference grid transform: origin `(0, 100)`, pixel size `(1, -1)`. -/
def gtBase : GeoTransform := ⟨0, 1, 0, 100, 0, -1⟩

/-- Same spacing as `gtBase`, origin shifted by exactly 2 pixel widths. -/
def gtOff2 : GeoTransform := ⟨2, 1, 0, 100, 0, -1⟩

/-- Same spacing as `gtBase`, origin shifted by 2.5 pixel widths. -/
def gtOff25 : GeoTransform := ⟨5 / 2, 1, 0, 100, 0, -1⟩

/-- A generic non-singular transform with rotation terms
(`b·f - e·c = 2·4 - 5·3 = -7`). -/
def gtGen : GeoTransform := ⟨7, 2, 3, 11, 5, 4⟩

/-! ### Theorems -/

/-- C1: the module implementation of `intersection` (`src/swath.rs`)
takes the minimum of the right extremes, but the CLI implementation
(`src/main.rs`, lines 193–196) takes `max` on all four extreme lists.
On two 100×100 grids with origins `(0, 100)` and `(5, 100)` the right
boundary should be `min(100, 105) = 100` (output width 95), yet the
`main.rs` variant computes `max(100, 105) = 105` and returns a
100-pixel-wide output. -/
theorem intersection_min_vs_main_max :
    leftmost_right [gridA, gridB] = 100 ∧
    leftmost_right_main [gridA, gridB] = 105 ∧
    intersection [gridA, gridB] = .ok ⟨95, 100, ⟨5, 1, 0, 100, 0, -1⟩, "P"⟩ ∧
    intersection_main [gridA, gridB] = .ok ⟨100, 100, ⟨5, 1, 0, 100, 0, -1⟩, "P"⟩ := by
  refine ⟨?_, ?_, ?_, ?_⟩ <;>
    norm_num [intersection, intersection_main, rightmost_left, leftmost_right,
      leftmost_right_main, upper_bottom, lower_top, lower_top_main, maxQ, minQ,
      Swath.left_extreme, Swath.right_extreme, Swath.bottom_extreme, Swath.top_extreme,
      Swath.corners, GeoTransform.apply, GeoTransform.applyQ, GeoTransform.imsize,
      GeoTransform.invert, gridA, gridB]

/-- C2: `imsize` applies `ceil`, which for the negative fractional pixel
coordinate `-5/2` (identity-like transform, target `(-5/2, -5/2)`)
rounds toward positive infinity to `-2`; the rounding rule of the
specification (away from zero, symmetric in sign) gives `-3`. -/
theorem imsize_ceils_toward_posinf_on_negative :
    GeoTransform.imsize ⟨0, 1, 0, 0, 0, 1⟩ (-(5 : ℚ) / 2, -(5 : ℚ) / 2) = (-2, -2) ∧
    pixel_extent_spec (-(5 : ℚ) / 2) = -3 := by
  constructor
  · norm_num [GeoTransform.imsize, GeoTransform.invert, Int.ceil_eq_iff]
  · norm_num [pixel_extent_spec, Int.ceil_eq_iff]

/-- C3: on the singular transform `gtSingular` (determinant
`b·f - e·c = 0`) the source's `invert` does not fail: it divides by the
zero determinant and silently returns the non-finite pixel coordinates
`(-∞, +∞)` for the world point `(1, 2)`.  No `SingularTransform` error
path exists in the code. -/
theorem invert_singular_is_silent :
    F.sub (F.mul gtSingular.b gtSingular.f) (F.mul gtSingular.e gtSingular.c) = F.real 0 ∧
    invertF gtSingular (F.real 1, F.real 2) = (F.neginf, F.inf) := by
  constructor
  · norm_num [gtSingular, F.mul, F.sub, F.add, F.neg]
  · norm_num [invertF, gtSingular, F.feq, F.mul, F.sub, F.add, F.neg, F.div]

/-- C4: the worked scenario.  Three 100×100 grids with pixel size
`(1, -1)`, origins `(0,100)`, `(5,100)` and `(0,95)`: the boundaries
are `left = 5`, `right = 100`, `bottom = 0`, `top = 95`, and the output
swath has origin `(5, 95)` and width and height both 95. -/
theorem intersection_worked_scenario :
    rightmost_left [gridA, gridB, gridC] = 5 ∧
    leftmost_right [gridA, gridB, gridC] = 100 ∧
    upper_bottom [gridA, gridB, gridC] = 0 ∧
    lower_top [gridA, gridB, gridC] = 95 ∧
    intersection [gridA, gridB, gridC] = .ok ⟨95, 95, ⟨5, 1, 0, 95, 0, -1⟩, "P"⟩ := by
  refine ⟨?_, ?_, ?_, ?_, ?_⟩ <;>
    norm_num [intersection, rightmost_left, leftmost_right, upper_bottom, lower_top,
      maxQ, minQ, Swath.left_extreme, Swath.right_extreme, Swath.bottom_extreme,
      Swath.top_extreme, Swath.corners, GeoTransform.apply, GeoTransform.applyQ,
      GeoTransform.imsize, GeoTransform.invert, gridA, gridB, gridC]

/-- C10: the two validation entry points disagree on the empty list:
`have_same_projection []` succeeds vacuously (the `all_same` fold starts
at `true`), while `have_compatible_geotransforms []` fails with
"empty dataset list". -/
theorem validators_disagree_on_empty :
    have_same_projection [] = .ok () ∧
    have_compatible_geotransforms [] = .error "empty dataset list" := by
  exact ⟨rfl, rfl⟩

/-- C5 counterexample: two grids that merely touch (`gridA` spans x in
`[0, 100]`, `gridTouch` spans `[100, 200]`) give a zero-extent rectangle
(`left = right = 100`), and `intersection` returns `Ok` with a
zero-width swath — it does not fail with `NoIntersection`. -/
theorem intersection_touching_returns_ok :
    rightmost_left [gridA, gridTouch] = leftmost_right [gridA, gridTouch] ∧
    intersection [gridA, gridTouch] = .ok ⟨0, 100, ⟨100, 1, 0, 100, 0, -1⟩, "P"⟩ := by
  constructor <;>
    norm_num [intersection, rightmost_left, leftmost_right, upper_bottom, lower_top,
      maxQ, minQ, Swath.left_extreme, Swath.right_extreme, Swath.bottom_extreme,
      Swath.top_extreme, Swath.corners, GeoTransform.apply, GeoTransform.applyQ,
      GeoTransform.imsize, GeoTransform.invert, gridA, gridTouch]

/-- C5 (amended): for every non-empty input list, `intersection` fails
with `NoIntersection` exactly when `left > right` or `bottom > top`
holds strictly, and returns an output swath otherwise (so zero-extent
rectangles succeed). -/
theorem intersection_error_iff_strict (ss : List Swath) (h : ss ≠ []) :
    (intersection ss = .error "No valid intersection between bands" ↔
      rightmost_left ss > leftmost_right ss ∨ upper_bottom ss > lower_top ss) ∧
    (¬(rightmost_left ss > leftmost_right ss ∨ upper_bottom ss > lower_top ss) →
      ∃ out, intersection ss = .ok out) := by
  match ss with
  | [] => exact absurd rfl h
  | s0 :: tl =>
    by_cases hc : rightmost_left (s0 :: tl) > leftmost_right (s0 :: tl) ∨
        upper_bottom (s0 :: tl) > lower_top (s0 :: tl)
    · constructor
      · simp [intersection, hc]
      · intro hn
        exact absurd hc hn
    · constructor
      · simp [intersection, hc]
      · intro _
        simp only [intersection, if_neg hc]
        exact ⟨_, rfl⟩

/-- C5 witness: the disjoint pair `gridA` (x in `[0, 100]`) and
`gridFar` (x in `[200, 300]`) is non-empty and fails with
`NoIntersection`. -/
theorem intersection_error_iff_strict_witness :
    ([gridA, gridFar] : List Swath) ≠ [] ∧
    intersection [gridA, gridFar] = .error "No valid intersection between bands" := by
  refine ⟨by simp, ?_⟩
  exact (intersection_error_iff_strict [gridA, gridFar] (by simp)).1.mpr
    (Or.inl (by norm_num [rightmost_left, leftmost_right, maxQ, minQ,
      Swath.left_extreme, Swath.right_extreme, Swath.corners,
      GeoTransform.apply, GeoTransform.applyQ, gridA, gridFar]))

/-- C7: for every transform with non-zero determinant `b·f - e·c`, the
forward affine map applied to `invert pt` reproduces `pt` exactly, in
both branches of the `b = 0` case split. -/
theorem apply_invert_id (g : GeoTransform) (pt : ℚ × ℚ)
    (h : g.b * g.f - g.e * g.c ≠ 0) :
    g.applyQ (g.invert pt) = pt := by
  obtain ⟨x, y⟩ := pt
  by_cases hb : g.b = 0
  · have hec : g.e * g.c ≠ 0 := by
      intro h0
      apply h
      rw [hb, zero_mul, zero_sub, h0, neg_zero]
    obtain ⟨he, hc⟩ := mul_ne_zero_iff.mp hec
    simp only [GeoTransform.invert, GeoTransform.applyQ, hb, ne_eq,
      not_true_eq_false, if_false, ite_false]
    simp only [Prod.mk.injEq]
    constructor <;> field_simp <;> ring
  · simp only [GeoTransform.invert, GeoTransform.applyQ, ne_eq, hb,
      not_false_eq_true, if_true, ite_true]
    simp only [Prod.mk.injEq]
    constructor <;> field_simp <;> ring

/-- C7 witness: the non-singular transform `gtGen` round-trips the
world point `(1, 2)`. -/
theorem apply_invert_id_witness :
    gtGen.b * gtGen.f - gtGen.e * gtGen.c ≠ 0 ∧
    gtGen.applyQ (gtGen.invert (1, 2)) = (1, 2) := by
  have h : gtGen.b * gtGen.f - gtGen.e * gtGen.c ≠ 0 := by norm_num [gtGen]
  exact ⟨h, apply_invert_id gtGen (1, 2) h⟩

/-- C6 counterexample: the `RealF64` comparator is not a lawful total
order: `2` and NaN compare `Equal`, NaN and `1` compare `Equal`, yet
`2` and `1` compare `Greater`, so antisymmetry and transitivity both
fail. -/
theorem cmpF_not_a_total_order :
    cmpF (F.real 2) F.nan = .eq ∧
    cmpF F.nan (F.real 1) = .eq ∧
    cmpF (F.real 2) (F.real 1) = .gt ∧
    F.nan ≠ F.real 1 ∧
    ¬(∀ x y z : F, cmpF x y ≠ .gt → cmpF y z ≠ .gt → cmpF x z ≠ .gt) := by
  refine ⟨rfl, rfl, ?_, by simp, ?_⟩
  · simp [cmpF, F.isNan, F.partialCmp, compare_gt_iff_gt]
  · intro htrans
    have h1 : cmpF (F.real 2) F.nan ≠ .gt := by simp [cmpF, F.isNan, F.partialCmp]
    have h2 : cmpF F.nan (F.real 1) ≠ .gt := by simp [cmpF, F.isNan]
    exact htrans _ _ _ h1 h2 (by simp [cmpF, F.isNan, F.partialCmp, compare_gt_iff_gt])

/-- C6 (amended): the comparator is total, and restricted to non-NaN
values it is a lawful total order that coincides with the numeric
comparison; transitivity and antisymmetry hold only under the no-NaN
hypotheses. -/
theorem cmpF_lawful_without_nan :
    (∀ x y : F, cmpF x y ≠ .gt ∨ cmpF y x ≠ .gt) ∧
    (∀ p q : ℚ, cmpF (F.real p) (F.real q) = compare p q) ∧
    (∀ x y z : F, x.isNan = false → y.isNan = false → z.isNan = false →
      cmpF x y ≠ .gt → cmpF y z ≠ .gt → cmpF x z ≠ .gt) ∧
    (∀ x y : F, x.isNan = false → y.isNan = false → cmpF x y = .eq → x = y) := by
  refine ⟨?_, ?_, ?_, ?_⟩
  · intro x y
    rcases x <;> rcases y <;>
      simp [cmpF, F.isNan, F.partialCmp, compare_gt_iff_gt]
    exact le_total _ _
  · intro p q
    rfl
  · intro x y z hx hy hz h1 h2
    rcases x <;> rcases y <;> rcases z <;>
      simp_all [cmpF, F.isNan, F.partialCmp, compare_gt_iff_gt]
    exact le_trans h1 h2
  · intro x y hx hy hxy
    rcases x <;> rcases y <;>
      simp_all [cmpF, F.isNan, F.partialCmp, compare_eq_iff_eq]

/-- C6 witness: the no-NaN transitivity applies to the chain
`1 ≤ 2 ≤ 3`. -/
theorem cmpF_lawful_without_nan_witness :
    (F.real 1).isNan = false ∧ (F.real 2).isNan = false ∧ (F.real 3).isNan = false ∧
    cmpF (F.real 1) (F.real 2) ≠ .gt ∧ cmpF (F.real 2) (F.real 3) ≠ .gt ∧
    cmpF (F.real 1) (F.real 3) ≠ .gt := by
  refine ⟨rfl, rfl, rfl, ?_, ?_, ?_⟩
  · simp [cmpF, F.isNan, F.partialCmp, compare_gt_iff_gt] <;> norm_num
  · simp [cmpF, F.isNan, F.partialCmp, compare_gt_iff_gt] <;> norm_num
  · exact cmpF_lawful_without_nan.2.2.1 (F.real 1) (F.real 2) (F.real 3) rfl rfl rfl
      (by simp [cmpF, F.isNan, F.partialCmp, compare_gt_iff_gt] <;> norm_num)
      (by simp [cmpF, F.isNan, F.partialCmp, compare_gt_iff_gt] <;> norm_num)

/-- C8 counterexample: a transform whose `b` coefficient is NaN is
bitwise identical to itself, yet the spacing check rejects the pair
`(gtNanB, gtNanB)` because the source compares with floating `==`, under
which NaN equals nothing. -/
theorem gt_compatibleF_nan_spacing_mismatch :
    gtNanB.b = F.nan ∧
    gt_compatibleF gtNanB gtNanB = .error "non-equal spacing" := by
  exact ⟨rfl, rfl⟩

/-- C8 (amended): the spacing check fails with `SpacingMismatch` exactly
when the four coefficient pairs are not equal under IEEE `==` (not
bitwise identity): NaN coefficients always mismatch. -/
theorem gt_compatibleF_spacing_uses_float_eq (g1 g2 : GeoTransformF) :
    gt_compatibleF g1 g2 = .error "non-equal spacing" ↔
      (g1.b.feq g2.b && g1.c.feq g2.c && g1.e.feq g2.e && g1.f.feq g2.f) = false := by
  by_cases hs : (g1.b.feq g2.b && g1.c.feq g2.c && g1.e.feq g2.e && g1.f.feq g2.f) = true
  · have hne : gt_compatibleF g1 g2 ≠ .error "non-equal spacing" := by
      simp only [gt_compatibleF, if_pos hs]
      split
      · intro h
        exact Except.noConfusion h
      · intro h
        injection h with h'
        exact absurd h' (by decide)
    simp [hne, hs]
  · have hs' : (g1.b.feq g2.b && g1.c.feq g2.c && g1.e.feq g2.e && g1.f.feq g2.f) = false :=
      Bool.eq_false_iff.mpr (fun h => hs h)
    simp only [gt_compatibleF, if_neg hs]
    simp [hs']

/-- A rational has zero fractional remainder under the source's
truncating `% 1.0` exactly when it is an integer. -/
theorem rustMod1_eq_zero_iff (x : ℚ) : rustMod1 x = 0 ↔ ∃ i : ℤ, x = (i : ℚ) := by
  unfold rustMod1 truncQ
  constructor
  · intro h
    by_cases h0 : 0 ≤ x
    · refine ⟨⌊x⌋, ?_⟩
      rw [if_pos h0] at h
      linarith
    · refine ⟨⌈x⌉, ?_⟩
      rw [if_neg h0] at h
      linarith
  · rintro ⟨i, rfl⟩
    by_cases h0 : 0 ≤ (i : ℚ)
    · rw [if_pos h0, Int.floor_intCast]
      ring
    · rw [if_neg h0, Int.ceil_intCast]
      ring

/-- C9: when two grids have identical spacing coefficients, the offset
check succeeds exactly when both pixel coordinates of the second
origin, inverted through the first transform, are exact integers, and
fails with `OffsetMisaligned` ("grids offset") otherwise. -/
theorem gt_compatible_offset_integrality (gt1 gt2 : GeoTransform)
    (hb : gt1.b = gt2.b) (hc : gt1.c = gt2.c) (he : gt1.e = gt2.e) (hf : gt1.f = gt2.f) :
    (gt_compatible gt1 gt2 = .ok () ↔
      (∃ i : ℤ, (gt1.invert (gt2.a, gt2.d)).1 = (i : ℚ)) ∧
      (∃ j : ℤ, (gt1.invert (gt2.a, gt2.d)).2 = (j : ℚ))) ∧
    (gt_compatible gt1 gt2 ≠ .ok () →
      gt_compatible gt1 gt2 = .error "grids offset") := by
  have hgt : gt_compatible gt1 gt2 =
      if rustMod1 (gt1.invert (gt2.a, gt2.d)).1 = 0 ∧ rustMod1 (gt1.invert (gt2.a, gt2.d)).2 = 0
      then (.ok () : Except String Unit) else .error "grids offset" := by
    simp only [gt_compatible]
    rw [if_pos ⟨hb, hc, he, hf⟩]
  by_cases hm : rustMod1 (gt1.invert (gt2.a, gt2.d)).1 = 0 ∧
      rustMod1 (gt1.invert (gt2.a, gt2.d)).2 = 0
  · rw [hgt, if_pos hm]
    refine ⟨⟨fun _ => ⟨(rustMod1_eq_zero_iff _).mp hm.1, (rustMod1_eq_zero_iff _).mp hm.2⟩,
      fun _ => rfl⟩, fun hne => absurd rfl hne⟩
  · rw [hgt, if_neg hm]
    refine ⟨⟨fun h => Except.noConfusion h, fun hints => ?_⟩, fun _ => rfl⟩
    exact absurd ⟨(rustMod1_eq_zero_iff _).mpr hints.1, (rustMod1_eq_zero_iff _).mpr hints.2⟩ hm

/-- C9 witness: with identical spacing, an origin offset of exactly 2
pixel widths is accepted and an offset of 2.5 pixel widths is rejected
with "grids offset". -/
theorem gt_compatible_offset_integrality_witness :
    gt_compatible gtBase gtOff2 = .ok () ∧
    gt_compatible gtBase gtOff25 = .error "grids offset" := by
  constructor
  · exact (gt_compatible_offset_integrality gtBase gtOff2 rfl rfl rfl rfl).1.mpr
      ⟨⟨2, by norm_num [gtBase, gtOff2, GeoTransform.invert]⟩,
       ⟨0, by norm_num [gtBase, gtOff2, GeoTransform.invert]⟩⟩
  · apply (gt_compatible_offset_integrality gtBase gtOff25 rfl rfl rfl rfl).2
    intro hok
    obtain ⟨⟨i, hi⟩, -⟩ :=
      (gt_compatible_offset_integrality gtBase gtOff25 rfl rfl rfl rfl).1.mp hok
    rw [show (gtBase.invert (gtOff25.a, gtOff25.d)).1 = 5 / 2 by
      norm_num [gtBase, gtOff25, GeoTransform.invert]] at hi
    have h5 : (5 : ℚ) = 2 * (i : ℚ) := by
      rw [← hi]
      norm_num
    have h5' : (5 : ℤ) = 2 * i := by exact_mod_cast h5
    omega

end Plyband
